import Mathlib

/-!
Shallow embedding of the `exun` crate (src/exun.rs, src/unexpected.rs,
src/result.rs) and proofs of the specification claims about it.

Rust panics are modelled by the `Panics` type below; a Rust trait object
`dyn Error` is modelled by `ErrObj`, an error value carrying its display
rendering, its debug rendering and its (rendered) cause chain.
-/

/-- Outcome of a Rust computation that may panic: either a returned value or
a process-terminating panic carrying the panic message. -/
inductive Panics (α : Type) where
  | ret (a : α)
  | panic (msg : String)
deriving DecidableEq

/-- Sequencing of possibly-panicking computations: a panic propagates. -/
def Panics.bind {α β : Type} : Panics α → (α → Panics β) → Panics β
  | .panic m, _ => .panic m
  | .ret a, f => f a

/-- Model of a concrete Rust value implementing `std::error::Error`:
its `Display` rendering, its `Debug` rendering, and its cause chain,
rendered as the list of (display, debug) pairs of the successive sources. -/
structure ErrObj where
  display : String
  debug : String
  chain : List (String × String)
deriving DecidableEq

/-- Model of `Error::source`: the next link of the cause chain, if any. -/
def ErrObj.source (e : ErrObj) : Option ErrObj :=
  match e.chain with
  | [] => none
  | (d, b) :: rest => ErrObj.mk d b rest

/-- Error objects reachable by repeatedly following `source` starting from
the links recorded in a rendered chain. -/
def chainFrom : List (String × String) → List ErrObj
  | [] => []
  | (d, b) :: rest => ErrObj.mk d b rest :: chainFrom rest

/-- Cause chain headed by the error object itself: the object, then
everything reachable through `source`. -/
def ErrObj.chainObjs (e : ErrObj) : List ErrObj :=
  e :: chainFrom e.chain

/-- Model of `enum ErrorTy` (src/unexpected.rs lines 14-21): the internal
state of the opaque error box. `message` keeps the boxed value's display and
debug renderings (the box stores it type-erased as `dyn Errorable`). -/
inductive ErrorTy where
  | none
  | message (display debug : String)
  | error (e : ErrObj)
deriving DecidableEq

/-- Model of `struct RawUnexpected` (src/unexpected.rs lines 29-32). -/
structure RawUnexpected where
  internal : ErrorTy
deriving DecidableEq

/-- Model of `impl Display for RawUnexpected` (src/unexpected.rs lines 34-44). -/
def RawUnexpected.display (ru : RawUnexpected) : String :=
  match ru.internal with
  | .none => "Called `unexpect` on a `None` value"
  | .message d _ => d
  | .error e => e.display

/-- Derived `Debug` rendering of `ErrorTy`. -/
def ErrorTy.debugStr : ErrorTy → String
  | .none => "None"
  | .message _ b => "Message(" ++ b ++ ")"
  | .error e => "Error(" ++ e.debug ++ ")"

/-- Derived `Debug` rendering of `RawUnexpected` (src/unexpected.rs line 29). -/
def RawUnexpected.debugStr (ru : RawUnexpected) : String :=
  "RawUnexpected \x7b internal: " ++ ru.internal.debugStr ++ " \x7d"

/-- Model of `RawUnexpected::new` (src/unexpected.rs lines 66-72): box a
structured error object. -/
def RawUnexpected.new (e : ErrObj) : RawUnexpected :=
  ⟨.error e⟩

/-- Model of `RawUnexpected::msg` (src/unexpected.rs lines 86-92): box a
displayable and debuggable value as a terminal message. -/
def RawUnexpected.msg (display debug : String) : RawUnexpected :=
  ⟨.message display debug⟩

/-- Model of `RawUnexpected::none` (src/unexpected.rs lines 106-111). -/
def RawUnexpected.none : RawUnexpected :=
  ⟨.none⟩

/-- Model of `RawUnexpected::source` (src/unexpected.rs lines 129-139). -/
def RawUnexpected.source (ru : RawUnexpected) : Option ErrObj :=
  match ru.internal with
  | .none => Option.none
  | .message _ _ => Option.none
  | .error e => some e

/-- Cause chain reachable through `source` from a `RawUnexpected` box. -/
def RawUnexpected.sourceChain (ru : RawUnexpected) : List ErrObj :=
  match ru.source with
  | Option.none => []
  | some l => l.chainObjs

/-- Model of `enum Exun` (src/exun.rs lines 15-21). -/
inductive Exun (E U : Type) where
  | Expected (e : E)
  | Unexpected (u : U)
deriving DecidableEq

/-- Model of `Exun::expected` (src/exun.rs lines 91-96). -/
def Exun.expected {E U : Type} : Exun E U → Option E
  | .Expected e => some e
  | .Unexpected _ => none

/-- Model of `Exun::unexpected` (src/exun.rs lines 115-120). -/
def Exun.unexpected {E U : Type} : Exun E U → Option U
  | .Expected _ => none
  | .Unexpected u => some u

/-- Model of `Exun::map` (src/exun.rs lines 168-173). -/
def Exun.map {E U T : Type} (op : E → T) : Exun E U → Exun T U
  | .Expected e => .Expected (op e)
  | .Unexpected u => .Unexpected u

/-- Model of `Exun::map_unexpected` (src/exun.rs lines 195-200). -/
def Exun.map_unexpected {E U T : Type} (op : U → T) : Exun E U → Exun E T
  | .Expected e => .Expected e
  | .Unexpected u => .Unexpected (op u)

/-- Model of `Exun::expect` (src/exun.rs lines 243-251); `dbgU` is the
`Debug` rendering of the unexpected payload type. -/
def Exun.expect {E U : Type} (dbgU : U → String) (msg : String) : Exun E U → Panics E
  | .Expected e => .ret e
  | .Unexpected u => .panic (msg ++ ": " ++ dbgU u)

/-- Model of `Exun::unwrap` (src/exun.rs lines 279-287). -/
def Exun.unwrap {E U : Type} (dbgU : U → String) : Exun E U → Panics E
  | .Expected e => .ret e
  | .Unexpected u =>
    .panic ("called `Expect::unwrap` on an `Unexpected` value: " ++ dbgU u)

/-- Model of `Exun::unwrap_unexpected` (src/exun.rs lines 311-322). -/
def Exun.unwrap_unexpected {E U : Type} (dbgE : E → String) : Exun E U → Panics U
  | .Expected e =>
    .panic ("called `Expect::unwrap_unexpected` on an `Expected` value: " ++ dbgE e)
  | .Unexpected u => .ret u

/-- Model of derived `PartialEq` on `Exun` (src/exun.rs line 15), generic in
the payload equalities. -/
def Exun.beq {E U : Type} (beqE : E → E → Bool) (beqU : U → U → Bool) :
    Exun E U → Exun E U → Bool
  | .Expected a, .Expected b => beqE a b
  | .Unexpected a, .Unexpected b => beqU a b
  | .Expected _, .Unexpected _ => false
  | .Unexpected _, .Expected _ => false

/-- Model of derived `Ord` on `Exun` (src/exun.rs line 15): variant tag in
declaration order first, payload comparison as tie-break. -/
def Exun.cmp {E U : Type} (cmpE : E → E → Ordering) (cmpU : U → U → Ordering) :
    Exun E U → Exun E U → Ordering
  | .Expected a, .Expected b => cmpE a b
  | .Expected _, .Unexpected _ => .lt
  | .Unexpected _, .Expected _ => .gt
  | .Unexpected a, .Unexpected b => cmpU a b

/-- Model of `impl Error for Exun<E, U>` with both payloads structured errors
(src/exun.rs lines 32-40): `source` yields the populated payload itself. -/
def Exun.sourceStd : Exun ErrObj ErrObj → Option ErrObj
  | .Expected e => some e
  | .Unexpected u => some u

/-- Model of `impl Error for Exun<E, RawUnexpected>` (src/exun.rs lines 42-50). -/
def Exun.sourceRaw : Exun ErrObj RawUnexpected → Option ErrObj
  | .Expected e => some e
  | .Unexpected u => u.source

/-- Cause chain reachable through `source` from an `Exun` container whose
payloads are both structured errors. -/
def Exun.sourceChain (x : Exun ErrObj ErrObj) : List ErrObj :=
  match x.sourceStd with
  | Option.none => []
  | some l => l.chainObjs

/-- Model of Rust `Result` (success-or-failure wrapper). -/
inductive Result (T ε : Type) where
  | ok (t : T)
  | err (e : ε)
deriving DecidableEq

/-- Model of `Result::unwrap_err` from the Rust standard library, which
panics on a success value; `dbgT` is the `Debug` rendering of the success
type. -/
def Result.unwrap_err {T ε : Type} (dbgT : T → String) : Result T ε → Panics ε
  | .ok t => .panic ("called `Result::unwrap_err()` on an `Ok` value: " ++ dbgT t)
  | .err e => .ret e

/-- Model of `ResultErrorExt::unexpect` for `Result<T, E>` with `E` a
structured error (src/result.rs lines 64-69): box the failure via
`RawUnexpected::new`. -/
def Result.unexpect {T : Type} : Result T ErrObj → Result T RawUnexpected
  | .ok t => .ok t
  | .err e => .err (RawUnexpected.new e)

/-- Model of `ResultErrorExt::unexpect` for `Result<T, RawUnexpected>`
(src/result.rs lines 71-75): the identity. -/
def Result.unexpect_raw {T : Type} : Result T RawUnexpected → Result T RawUnexpected
  | r => r

/-- Model of `ResultErrorExt::unexpect` for `Option<T>` (src/result.rs
lines 77-81): an empty optional becomes the absent box. -/
def Option.unexpect {T : Type} : Option T → Result T RawUnexpected
  | some t => .ok t
  | Option.none => .err RawUnexpected.none

/-- Model of `ResultMsgExt::unexpect_msg` (src/result.rs lines 130-134):
box the failure via `RawUnexpected::msg`; `dispE` and `dbgE` are the
`Display` and `Debug` renderings of the failure type. -/
def Result.unexpect_msg {T ε : Type} (dispE dbgE : ε → String) :
    Result T ε → Result T RawUnexpected
  | .ok t => .ok t
  | .err e => .err (RawUnexpected.msg (dispE e) (dbgE e))

/-- Model of `ResultExunExt::unwrap_result` (src/result.rs lines 315-323). -/
def Result.unwrap_result {T E U : Type} (dbgU : U → String) :
    Result T (Exun E U) → Panics (Result T E)
  | .ok v => .ret (.ok v)
  | .err er => (er.unwrap dbgU).bind (fun e => .ret (.err e))

/-- Model of `ResultExunExt::unwrap_expected_err` (src/result.rs
lines 325-331): `self.unwrap_err().unwrap()`. -/
def Result.unwrap_expected_err {T E U : Type} (dbgT : T → String) (dbgU : U → String)
    (r : Result T (Exun E U)) : Panics E :=
  (r.unwrap_err dbgT).bind (Exun.unwrap dbgU)

/-- Model of `ResultExunExt::unwrap_unexpected_err` (src/result.rs
lines 333-339): `self.unwrap_err().unwrap_unexpected()`. -/
def Result.unwrap_unexpected_err {T E U : Type} (dbgT : T → String) (dbgE : E → String)
    (r : Result T (Exun E U)) : Panics U :=
  (r.unwrap_err dbgT).bind (Exun.unwrap_unexpected dbgE)

/-- Claim C1: for every `Exun` container, exactly one of the consuming
extractors `expected` and `unexpected` returns `some` — `Expected e` gives
`expected = some e` and `unexpected = none`, `Unexpected u` gives
`expected = none` and `unexpected = some u`; never both, never neither. -/
theorem exun_extractors_exclusive (E U : Type) (e : E) (u : U) (x : Exun E U) :
    Exun.expected (Exun.Expected e : Exun E U) = some e ∧
    Exun.unexpected (Exun.Expected e : Exun E U) = none ∧
    Exun.expected (Exun.Unexpected u : Exun E U) = none ∧
    Exun.unexpected (Exun.Unexpected u : Exun E U) = some u ∧
    ¬(x.expected.isSome ∧ x.unexpected.isSome) ∧
    ¬(x.expected = none ∧ x.unexpected = none) := by
  refine ⟨rfl, rfl, rfl, rfl, ?_, ?_⟩ <;>
    cases x <;> simp [Exun.expected, Exun.unexpected]

/-- Claim C2: `map f` sends `Expected e` to `Expected (f e)` and leaves any
`Unexpected u` unchanged regardless of `f`; symmetrically `map_unexpected g`
sends `Unexpected u` to `Unexpected (g u)` and leaves `Expected e` unchanged. -/
theorem exun_map_laws (E U T : Type) (f : E → T) (g : U → T) (e : E) (u : U) :
    (Exun.Expected e : Exun E U).map f = Exun.Expected (f e) ∧
    (Exun.Unexpected u : Exun E U).map f = Exun.Unexpected u ∧
    (Exun.Unexpected u : Exun E U).map_unexpected g = Exun.Unexpected (g u) ∧
    (Exun.Expected e : Exun E U).map_unexpected g = Exun.Expected e :=
  ⟨rfl, rfl, rfl, rfl⟩

/-- Claim C3: `unwrap` returns the expected payload and panics on
`Unexpected u` with a message containing the debug rendering of `u`;
`unwrap_unexpected` is dual; `expect msg` behaves like `unwrap` but prefixes
the panic message with the caller-supplied `msg`. -/
theorem exun_unwrap_expect_behavior (E U : Type) (dbgE : E → String)
    (dbgU : U → String) (m : String) (e : E) (u : U) :
    Exun.unwrap dbgU (Exun.Expected e : Exun E U) = Panics.ret e ∧
    Exun.unwrap dbgU (Exun.Unexpected u : Exun E U) =
      Panics.panic ("called `Expect::unwrap` on an `Unexpected` value: " ++ dbgU u) ∧
    (∃ p, Exun.unwrap dbgU (Exun.Unexpected u : Exun E U) = Panics.panic (p ++ dbgU u)) ∧
    Exun.unwrap_unexpected dbgE (Exun.Unexpected u : Exun E U) = Panics.ret u ∧
    (∃ p, Exun.unwrap_unexpected dbgE (Exun.Expected e : Exun E U) =
      Panics.panic (p ++ dbgE e)) ∧
    Exun.expect dbgU m (Exun.Expected e : Exun E U) = Panics.ret e ∧
    Exun.expect dbgU m (Exun.Unexpected u : Exun E U) =
      Panics.panic (m ++ ": " ++ dbgU u) :=
  ⟨rfl, rfl, ⟨"called `Expect::unwrap` on an `Unexpected` value: ", rfl⟩, rfl,
    ⟨"called `Expect::unwrap_unexpected` on an `Expected` value: ", rfl⟩, rfl, rfl⟩

/-- Claim C4 counterexample: for the structured error with display "boom",
debug "Boom" and no cause of its own, `RawUnexpected::new` produces a box
whose `source` is `some` (the boxed error itself), not `none` as the claim
states for a cause-free error. -/
theorem raw_unexpected_source_counterexample :
    (ErrObj.mk "boom" "Boom" []).source = none ∧
    (RawUnexpected.new (ErrObj.mk "boom" "Boom" [])).source =
      some (ErrObj.mk "boom" "Boom" []) ∧
    (RawUnexpected.new (ErrObj.mk "boom" "Boom" [])).source ≠ none :=
  ⟨rfl, rfl, by simp [RawUnexpected.new, RawUnexpected.source]⟩

/-- Claim C4 amended: for every structured error `e`, the box produced by
`RawUnexpected::new e` has `source = some e` — the link is the boxed error
itself, whose display and debug renderings are those of `e` — and the source
is never `none`, even when `e` has no cause of its own. -/
theorem raw_unexpected_new_source_amended (e : ErrObj) :
    (RawUnexpected.new e).source = some e ∧
    ((RawUnexpected.new e).source.map ErrObj.display) = some e.display ∧
    (RawUnexpected.new e).source ≠ none :=
  ⟨rfl, rfl, by simp [RawUnexpected.new, RawUnexpected.source]⟩

/-- Claim C5 counterexample: `unexpect_msg` applied to a failing
`Result<T, RawUnexpected>` is not the identity — it re-boxes the error as a
message, so the result differs from the input. -/
theorem unexpect_msg_not_identity :
    Result.unexpect_msg RawUnexpected.display RawUnexpected.debugStr
        (Result.err (RawUnexpected.new (ErrObj.mk "boom" "Boom" [])) :
          Result Unit RawUnexpected) ≠
      Result.err (RawUnexpected.new (ErrObj.mk "boom" "Boom" [])) := by
  decide

/-- Claim C5 amended: the conversion that is the identity on
`Result<T, RawUnexpected>` is `unexpect` (the `ResultErrorExt` impl for that
type); `unexpect_msg` on such a result keeps a success unchanged but re-boxes
a failure as a message box whose display equals the original display and
whose source is dropped to `none`. -/
theorem unexpect_identity_amended (T : Type) (r : Result T RawUnexpected)
    (t : T) (ru : RawUnexpected) :
    Result.unexpect_raw r = r ∧
    Result.unexpect_msg RawUnexpected.display RawUnexpected.debugStr
      (Result.ok t : Result T RawUnexpected) = Result.ok t ∧
    (∃ m, Result.unexpect_msg RawUnexpected.display RawUnexpected.debugStr
        (Result.err ru : Result T RawUnexpected) = Result.err m ∧
      m.display = ru.display ∧ m.source = none) :=
  ⟨rfl, rfl, ⟨RawUnexpected.msg ru.display ru.debugStr, rfl, rfl, rfl⟩⟩

/-- Claim C6: all three conversions pass a success value through unchanged;
an empty optional converted through `unexpect` yields the absent box
`RawUnexpected::none`, whose display is a fixed non-empty diagnostic and
whose `source` is `none`. -/
theorem conversions_preserve_ok (T ε : Type) (t : T) (dispE dbgE : ε → String) :
    Result.unexpect (Result.ok t : Result T ErrObj) = Result.ok t ∧
    Result.unexpect_msg dispE dbgE (Result.ok t : Result T ε) = Result.ok t ∧
    Result.unexpect_raw (Result.ok t : Result T RawUnexpected) = Result.ok t ∧
    Option.unexpect (some t) = Result.ok t ∧
    Option.unexpect (none : Option T) = Result.err RawUnexpected.none ∧
    RawUnexpected.display RawUnexpected.none = "Called `unexpect` on a `None` value" ∧
    RawUnexpected.display RawUnexpected.none ≠ "" ∧
    RawUnexpected.source RawUnexpected.none = none := by
  refine ⟨rfl, rfl, rfl, rfl, rfl, rfl, ?_, rfl⟩
  decide

/-- Claim C7 counterexample: `unwrap_expected_err` applied to the success
value `Ok 2` panics (via `Result::unwrap_err`) instead of passing the
success through untouched, so a fatal panic does not happen only on a
present failure of the wrong variant. -/
theorem unwrap_expected_err_panics_on_ok :
    Result.unwrap_expected_err (fun n : Nat => Nat.repr n) (fun n : Nat => Nat.repr n)
        (Result.ok 2 : Result Nat (Exun Nat Nat)) =
      Panics.panic "called `Result::unwrap_err()` on an `Ok` value: 2" := by
  decide

/-- Claim C7 amended: `unwrap_result` passes a success value through
untouched and unwraps only a present failure, panicking exactly on a present
`Unexpected` failure; `unwrap_expected_err` and `unwrap_unexpected_err`
return the payload only of a present failure of the matching variant and
panic both on a success value and on a present failure of the wrong
variant. -/
theorem result_unwrap_variants_amended (T E U : Type) (dbgT : T → String)
    (dbgE : E → String) (dbgU : U → String) (t : T) (e : E) (u : U) :
    Result.unwrap_result dbgU (Result.ok t : Result T (Exun E U)) =
      Panics.ret (Result.ok t) ∧
    Result.unwrap_result dbgU (Result.err (Exun.Expected e) : Result T (Exun E U)) =
      Panics.ret (Result.err e) ∧
    (∃ m, Result.unwrap_result dbgU
      (Result.err (Exun.Unexpected u) : Result T (Exun E U)) = Panics.panic m) ∧
    (∃ m, Result.unwrap_expected_err dbgT dbgU
      (Result.ok t : Result T (Exun E U)) = Panics.panic m) ∧
    Result.unwrap_expected_err dbgT dbgU
      (Result.err (Exun.Expected e) : Result T (Exun E U)) = Panics.ret e ∧
    (∃ m, Result.unwrap_expected_err dbgT dbgU
      (Result.err (Exun.Unexpected u) : Result T (Exun E U)) = Panics.panic m) ∧
    (∃ m, Result.unwrap_unexpected_err dbgT dbgE
      (Result.ok t : Result T (Exun E U)) = Panics.panic m) ∧
    Result.unwrap_unexpected_err dbgT dbgE
      (Result.err (Exun.Unexpected u) : Result T (Exun E U)) = Panics.ret u ∧
    (∃ m, Result.unwrap_unexpected_err dbgT dbgE
      (Result.err (Exun.Expected e) : Result T (Exun E U)) = Panics.panic m) :=
  ⟨rfl, rfl, ⟨_, rfl⟩, ⟨_, rfl⟩, rfl, ⟨_, rfl⟩, ⟨_, rfl⟩, rfl, ⟨_, rfl⟩⟩

/-- Claim C8: when both payload types are structured errors, the container
exposes the populated payload as its `source`, so the cause chain reachable
from the container is exactly the chain headed by the payload itself — the
container contributes no link of its own, for both variants. -/
theorem exun_source_transparent (e u : ErrObj) :
    Exun.sourceStd (Exun.Expected e : Exun ErrObj ErrObj) = some e ∧
    Exun.sourceStd (Exun.Unexpected u : Exun ErrObj ErrObj) = some u ∧
    Exun.sourceChain (Exun.Expected e : Exun ErrObj ErrObj) = e.chainObjs ∧
    Exun.sourceChain (Exun.Unexpected u : Exun ErrObj ErrObj) = u.chainObjs :=
  ⟨rfl, rfl, rfl, rfl⟩

/-- Claim C9: under the derived equality and order on `Exun`, an `Expected`
value is never equal to an `Unexpected` value whatever the payload equality,
every `Expected` value orders strictly before every `Unexpected` value
(tag first), and two values of the same variant compare by payload. -/
theorem exun_order_variant_aware (E U : Type) (beqE : E → E → Bool)
    (beqU : U → U → Bool) (cmpE : E → E → Ordering) (cmpU : U → U → Ordering)
    (e e2 : E) (u u2 : U) :
    Exun.beq beqE beqU (Exun.Expected e) (Exun.Unexpected u) = false ∧
    Exun.beq beqE beqU (Exun.Unexpected u) (Exun.Expected e) = false ∧
    Exun.beq beqE beqU (Exun.Expected e) (Exun.Expected e2) = beqE e e2 ∧
    Exun.beq beqE beqU (Exun.Unexpected u) (Exun.Unexpected u2) = beqU u u2 ∧
    Exun.cmp cmpE cmpU (Exun.Expected e) (Exun.Unexpected u) = Ordering.lt ∧
    Exun.cmp cmpE cmpU (Exun.Unexpected u) (Exun.Expected e) = Ordering.gt ∧
    Exun.cmp cmpE cmpU (Exun.Expected e) (Exun.Expected e2) = cmpE e e2 ∧
    Exun.cmp cmpE cmpU (Exun.Unexpected u) (Exun.Unexpected u2) = cmpU u u2 :=
  ⟨rfl, rfl, rfl, rfl, rfl, rfl, rfl, rfl⟩

/-- Claim C10: for every structured error `e`, even one whose own cause is
`none`, `RawUnexpected::new e` has `source = some e` — the chain gains `e`
itself as a link (display and debug equal those of `e`), rather than
starting at the cause of `e` — while `RawUnexpected::msg` always yields a
box with `source = none`. -/
theorem raw_unexpected_source_links (e : ErrObj) (d b : String) :
    (RawUnexpected.new e).source = some e ∧
    ((RawUnexpected.new e).source.map ErrObj.display) = some e.display ∧
    ((RawUnexpected.new e).source.map ErrObj.debug) = some e.debug ∧
    (RawUnexpected.new e).sourceChain = e.chainObjs ∧
    (RawUnexpected.msg d b).source = none :=
  ⟨rfl, rfl, rfl, rfl, rfl⟩
